import Mathlib

/-!
Verification of the natural-language specification of the `st-qb-app`
repository (two Streamlit chat front-ends over AWS Bedrock, `src/app.py`
and `src/app2.py`) against a shallow embedding of the Python source.

The embedding models JSON values, the Python expression semantics used by
the source (dict `.get`, `[0]` indexing, truthiness, `str()`), and the
functions `init_bedrock_client`, `invoke_bedrock_model`, `text_to_speech`,
`speech_to_text` and the per-turn chat handlers.  External effects
(the Bedrock endpoint, gTTS, the speech recognizer, the file system) are
parameters or small environment records; everything else is translated
directly from the source.
-/

namespace StQbApp

/-- JSON values as produced by `json.loads` in the source.  Numbers are
modelled as rationals (`maxTokens` is a Python int, `temperature` a float;
no claim depends on numeric formatting or float rounding). -/
inductive Json where
  | null
  | bool (b : Bool)
  | num (q : ℚ)
  | str (s : String)
  | arr (elts : List Json)
  | obj (fields : List (String × Json))

/-- Substring test on character lists: `listContains pat l` is true iff
`pat` occurs contiguously inside `l`.  This is the semantics of Python's
`pat in s` on strings. -/
def listContains (pat : List Char) : List Char → Bool
  | [] => pat.isEmpty
  | c :: rest => pat.isPrefixOf (c :: rest) || listContains pat rest

/-- Embedding of Python `str.lower()` (the identifiers dispatched on in the
source are ASCII, where `Char.toLower` agrees with Python). -/
def pyLower (s : String) : String := List.asString (s.toList.map Char.toLower)

/-- Embedding of Python's `pat in s` substring operator. -/
def pyIn (pat s : String) : Bool := listContains pat.toList s.toList

/-- A single-quote character, used when rendering Python `repr` output. -/
def pyQuote (s : String) : String :=
  String.singleton (Char.ofNat 39) ++ s ++ String.singleton (Char.ofNat 39)

/-- Python type name of a JSON value (as it appears in runtime error
messages).  `int` versus `float` is approximated by the denominator. -/
def pyTypeName : Json → String
  | .null => "NoneType"
  | .bool _ => "bool"
  | .num q => if q.den = 1 then "int" else "float"
  | .str _ => "str"
  | .arr _ => "list"
  | .obj _ => "dict"

/-- Python `repr` of a numeric value.  Exact float formatting is not
modelled (no claim depends on it); integers render as in Python. -/
def pyNumRepr (q : ℚ) : String :=
  if q.den = 1 then toString q.num else toString q.num ++ "/" ++ toString q.den

mutual

/-- Python `repr` of a JSON value (string escaping inside `repr` is not
modelled; no claim depends on it). -/
def pyRepr : Json → String
  | .null => "None"
  | .bool true => "True"
  | .bool false => "False"
  | .num q => pyNumRepr q
  | .str s => pyQuote s
  | .arr l => "[" ++ pyReprElems l ++ "]"
  | .obj l => "\x7b" ++ pyReprFields l ++ "\x7d"

/-- Comma-separated `repr` of list elements. -/
def pyReprElems : List Json → String
  | [] => ""
  | [v] => pyRepr v
  | v :: rest => pyRepr v ++ ", " ++ pyReprElems rest

/-- Comma-separated `repr` of dict entries. -/
def pyReprFields : List (String × Json) → String
  | [] => ""
  | [(k, v)] => pyQuote k ++ ": " ++ pyRepr v
  | (k, v) :: rest => pyQuote k ++ ": " ++ pyRepr v ++ ", " ++ pyReprFields rest

end

/-- Python `str()` applied to a JSON value (as in `str(response_body)`):
the string itself for `str`, `repr`-style rendering otherwise. -/
def pyStr : Json → String
  | .str s => s
  | v => pyRepr v

/-- Python runtime exceptions that the extraction expressions of
`invoke_bedrock_model` can raise, with their `str(e)` message. -/
inductive PyError where
  | typeError (msg : String)
  | indexError (msg : String)
  | attributeError (msg : String)
  | keyError (msg : String)

/-- The `str(e)` text of a modelled Python exception. -/
def PyError.message : PyError → String
  | .typeError m => m
  | .indexError m => m
  | .attributeError m => m
  | .keyError m => m

/-- Semantics of Python `d.get(key, default)`: assoc-list lookup on a dict,
`AttributeError` on any non-dict value. -/
def dictGet (v : Json) (key : String) (dft : Json) : Except PyError Json :=
  match v with
  | .obj kvs => .ok ((kvs.lookup key).getD dft)
  | other => .error (.attributeError
      (pyQuote (pyTypeName other) ++ " object has no attribute " ++ pyQuote "get"))

/-- Semantics of Python `v[0]`: head of a nonempty list, first character of
a nonempty string, `IndexError` when empty, `KeyError` on a dict with only
string keys, `TypeError` otherwise. -/
def index0 (v : Json) : Except PyError Json :=
  match v with
  | .arr [] => .error (.indexError "list index out of range")
  | .arr (x :: _) => .ok x
  | .str s =>
    match s.toList with
    | [] => .error (.indexError "string index out of range")
    | c :: _ => .ok (.str (String.singleton c))
  | .obj _ => .error (.keyError "0")
  | other => .error (.typeError (pyQuote (pyTypeName other) ++ " object is not subscriptable"))

/-- Provider families of the dispatch (spec section 4.2). -/
inductive Family where
  | anthropic
  | ai21
  | amazon
  | cohere
  | defaultFam
deriving DecidableEq

/-- Modelled from the spec: the dispatch rule of sections 4.2/4.4 —
case-insensitive substring match on the model identifier against the fixed
ordered set of families, first match winning, `defaultFam` as fallback. -/
def specFamilyOf (model_id : String) : Family :=
  if pyIn "anthropic" (pyLower model_id) then .anthropic
  else if pyIn "ai21" (pyLower model_id) then .ai21
  else if pyIn "amazon" (pyLower model_id) then .amazon
  else if pyIn "cohere" (pyLower model_id) then .cohere
  else .defaultFam

/-- Request-body construction of `invoke_bedrock_model` (`src/app.py`
lines 54-92, identical in `src/app2.py` lines 133-171): an if/elif chain of
substring tests on `model_id.lower()` choosing the provider payload. -/
def buildBody (model_id prompt : String) (max_tokens : Int) (temperature : ℚ) : Json :=
  if pyIn "anthropic" (pyLower model_id) then
    .obj [("anthropic_version", .str "bedrock-2023-05-31"),
          ("max_tokens", .num max_tokens),
          ("temperature", .num temperature),
          ("messages", .arr [.obj [("role", .str "user"), ("content", .str prompt)]])]
  else if pyIn "ai21" (pyLower model_id) then
    .obj [("prompt", .str prompt),
          ("maxTokens", .num max_tokens),
          ("temperature", .num temperature)]
  else if pyIn "amazon" (pyLower model_id) then
    .obj [("inputText", .str prompt),
          ("textGenerationConfig", .obj [("maxTokenCount", .num max_tokens),
                                         ("temperature", .num temperature)])]
  else if pyIn "cohere" (pyLower model_id) then
    .obj [("prompt", .str prompt),
          ("max_tokens", .num max_tokens),
          ("temperature", .num temperature)]
  else
    .obj [("prompt", .str prompt),
          ("max_tokens", .num max_tokens),
          ("temperature", .num temperature)]

/-- Response-text extraction of `invoke_bedrock_model` (`src/app.py`
lines 106-115, identical in `src/app2.py` lines 185-194), with the Python
expression semantics made explicit: chained `.get`/`[0]` steps that either
produce a value or raise. -/
def extract (model_id : String) (response_body : Json) : Except PyError Json :=
  if pyIn "anthropic" (pyLower model_id) then do
    let v ← dictGet response_body "content" (.arr [.obj []])
    let e ← index0 v
    dictGet e "text" (.str "")
  else if pyIn "ai21" (pyLower model_id) then do
    let v ← dictGet response_body "completions" (.arr [.obj []])
    let e ← index0 v
    let d ← dictGet e "data" (.obj [])
    dictGet d "text" (.str "")
  else if pyIn "amazon" (pyLower model_id) then do
    let v ← dictGet response_body "results" (.arr [.obj []])
    let e ← index0 v
    dictGet e "outputText" (.str "")
  else if pyIn "cohere" (pyLower model_id) then do
    let v ← dictGet response_body "generations" (.arr [.obj []])
    let e ← index0 v
    dictGet e "text" (.str "")
  else
    .ok (.str (pyStr response_body))

/-- The request body built for each provider family: `buildBody` factored
through the family of the identifier (the per-family cases are verbatim
those of `buildBody`). -/
def buildForFamily : Family → String → Int → ℚ → Json
  | .anthropic, prompt, max_tokens, temperature =>
    .obj [("anthropic_version", .str "bedrock-2023-05-31"),
          ("max_tokens", .num max_tokens),
          ("temperature", .num temperature),
          ("messages", .arr [.obj [("role", .str "user"), ("content", .str prompt)]])]
  | .ai21, prompt, max_tokens, temperature =>
    .obj [("prompt", .str prompt),
          ("maxTokens", .num max_tokens),
          ("temperature", .num temperature)]
  | .amazon, prompt, max_tokens, temperature =>
    .obj [("inputText", .str prompt),
          ("textGenerationConfig", .obj [("maxTokenCount", .num max_tokens),
                                         ("temperature", .num temperature)])]
  | .cohere, prompt, max_tokens, temperature =>
    .obj [("prompt", .str prompt),
          ("max_tokens", .num max_tokens),
          ("temperature", .num temperature)]
  | .defaultFam, prompt, max_tokens, temperature =>
    .obj [("prompt", .str prompt),
          ("max_tokens", .num max_tokens),
          ("temperature", .num temperature)]

/-- The extraction performed for each provider family: `extract` factored
through the family of the identifier (the per-family cases are verbatim
those of `extract`). -/
def extractForFamily : Family → Json → Except PyError Json
  | .anthropic, response_body => do
    let v ← dictGet response_body "content" (.arr [.obj []])
    let e ← index0 v
    dictGet e "text" (.str "")
  | .ai21, response_body => do
    let v ← dictGet response_body "completions" (.arr [.obj []])
    let e ← index0 v
    let d ← dictGet e "data" (.obj [])
    dictGet d "text" (.str "")
  | .amazon, response_body => do
    let v ← dictGet response_body "results" (.arr [.obj []])
    let e ← index0 v
    dictGet e "outputText" (.str "")
  | .cohere, response_body => do
    let v ← dictGet response_body "generations" (.arr [.obj []])
    let e ← index0 v
    dictGet e "text" (.str "")
  | .defaultFam, response_body => .ok (.str (pyStr response_body))

/-- Result of one attempt against the Bedrock endpoint, as observed by the
`try` block of `invoke_bedrock_model`: a 2xx response whose body parses to
JSON, a `botocore` `ClientError` carrying a structured code and message, or
any other exception with its `str(e)` text (network, serialization,
timeout, unparseable body). -/
inductive EndpointResult where
  | ok (body : Json)
  | clientError (code message : String)
  | exn (message : String)

/-- Observable outcome of `invoke_bedrock_model`: the returned value on
success, or the `st.error` text displayed together with the `None` return
on failure.  The type is total: no constructor re-raises, matching the
source's catch-all handlers. -/
inductive InvokeOutcome where
  | success (value : Json)
  | failure (displayed : String)

/-- `invoke_bedrock_model` (`src/app.py` lines 51-124): build the body,
make a single `invoke_model` call, extract the text; a `ClientError` is
surfaced as `Error de AWS: {code} - {message}` and any other exception
(including exceptions raised by the extraction expressions) as
`Error al invocar el modelo: {str(e)}`, both returning `None`.

The endpoint is a function from attempt index to behaviour; the source
performs exactly one call, so only index `0` is ever consulted. -/
def invoke_bedrock_model (endpoint : Nat → Json → EndpointResult)
    (model_id prompt : String) (max_tokens : Int) (temperature : ℚ) : InvokeOutcome :=
  match endpoint 0 (buildBody model_id prompt max_tokens temperature) with
  | .ok body =>
    match extract model_id body with
    | .ok v => .success v
    | .error e => .failure ("Error al invocar el modelo: " ++ e.message)
  | .clientError code message => .failure ("Error de AWS: " ++ code ++ " - " ++ message)
  | .exn message => .failure ("Error al invocar el modelo: " ++ message)

/-- Python truthiness of an optional string argument (`None` and the empty
string are falsy, any other string truthy). -/
def pyTruthyStr : Option String → Bool
  | none => false
  | some s => !s.isEmpty

/-- Python truthiness of a JSON value (`if response:` in the source). -/
def jsonTruthy : Json → Bool
  | .null => false
  | .bool b => b
  | .num q => decide (q ≠ 0)
  | .str s => !s.isEmpty
  | .arr l => !l.isEmpty
  | .obj l => !l.isEmpty

/-- The three credential sources `init_bedrock_client` can hand to
`boto3.client`. -/
inductive CredSource where
  | storedSecret
  | explicitKeys
  | ambientDefault
deriving DecidableEq

/-- Credential-source selection performed by `init_bedrock_client`
(`src/app.py` lines 16-35): `use_secrets` selects the secret store,
otherwise `if aws_access_key_id and aws_secret_access_key` selects the
explicit keys, and every remaining case (either field `None` or empty)
falls through to the ambient default provider chain. -/
def init_credential_source (use_secrets : Bool)
    (aws_access_key_id aws_secret_access_key : Option String) : CredSource :=
  if use_secrets then .storedSecret
  else if pyTruthyStr aws_access_key_id && pyTruthyStr aws_secret_access_key then .explicitKeys
  else .ambientDefault

/-- Role of a conversation turn. -/
inductive Role where
  | user
  | assistant
deriving DecidableEq

/-- One entry of `st.session_state.messages`: the `role`/`content` dict,
plus the optional `audio` key that `src/app2.py` may attach (audio bytes
modelled as a list of byte values). -/
structure Turn where
  role : Role
  content : Json
  audio : Option (List Nat)

/-- The per-turn chat handler of `src/app.py` `main` (lines 220-244):
append the user turn, then — `response` being what `invoke_bedrock_model`
returned, `None` on failure — append an assistant turn only when
`if response:` finds it truthy. -/
def main_chat_turn (msgs : List Turn) (prompt : String) (response : Option Json) : List Turn :=
  let m1 := msgs ++ [⟨.user, .str prompt, none⟩]
  match response with
  | none => m1
  | some v => if jsonTruthy v then m1 ++ [⟨.assistant, v, none⟩] else m1

/-- `process_user_message` of `src/app2.py` (lines 319-360): append the
user turn; if the invocation `response` is truthy, build the assistant
message, optionally attach audio (`if voice_enabled and voice_lang:` call
`text_to_speech`, attach only `if audio_data:` — empty bytes are falsy),
and append it; otherwise append nothing further.  `tts` abstracts the
`text_to_speech` call on the response value. -/
def process_user_message (tts : Json → Option (List Nat)) (msgs : List Turn)
    (prompt : String) (response : Option Json)
    (voice_enabled : Bool) (voice_lang : Option String) : List Turn :=
  let m1 := msgs ++ [⟨.user, .str prompt, none⟩]
  match response with
  | none => m1
  | some v =>
    if jsonTruthy v then
      let audio : Option (List Nat) :=
        if voice_enabled && pyTruthyStr voice_lang then
          match tts v with
          | some a => if a.isEmpty then none else some a
          | none => none
        else none
      m1 ++ [⟨.assistant, v, audio⟩]
    else m1

/-- `text_to_speech` (`src/app2.py` lines 73-90): texts longer than 1000
characters are truncated to their first 1000 characters plus `"..."`
before synthesis; `gtts` abstracts the gTTS pipeline on the (possibly
truncated) text, returning `none` when it raises (the handler returns
`None`). -/
def text_to_speech (gtts : String → Option (List Nat)) (text : String) : Option (List Nat) :=
  let t := if text.length > 1000 then text.take 1000 ++ "..." else text
  gtts t

/-- Outcome of the `recognize_google` call inside `speech_to_text`. -/
inductive RecogOutcome where
  | ok (text : String)
  | unknownValue
  | requestError (msg : String)
  | otherExn (msg : String)

/-- Environment for one run of `speech_to_text`: which of the failable
steps of the `try` block raises (with its `str(e)` text), in source
order.  `createExn`: `tempfile.NamedTemporaryFile(...)` raises before the
file exists; `writeExn`: `tmp_file.write(audio_data)` raises after the
file exists but before `tmp_file_path` is bound; `audioExn`:
`sr.Recognizer()`/`sr.AudioFile`/`adjust_for_ambient_noise`/`record`
raises; `recog`: the recognition outcome. -/
structure STTEnv where
  createExn : Option String
  writeExn : Option String
  audioExn : Option String
  recog : RecogOutcome

/-- File-system state relevant to `speech_to_text`: whether the temporary
file is on disk and whether the local `tmp_file_path` is bound. -/
structure TempFileState where
  fileExists : Bool
  pathBound : Bool

/-- Exit of the `try` block of `speech_to_text`: a returned text or one of
the exceptions its `except` clauses distinguish. -/
inductive TryExit where
  | ret (text : String)
  | unknownValue
  | requestError (msg : String)
  | genericExn (msg : String)

/-- The `try` block of `speech_to_text` (`src/app2.py` lines 94-116),
threaded through the file-system state.  On the success path the source
calls `os.unlink(tmp_file_path)` itself before returning. -/
def speech_to_text_try (env : STTEnv) : TryExit × TempFileState :=
  match env.createExn with
  | some m => (.genericExn m, ⟨false, false⟩)
  | none =>
    match env.writeExn with
    | some m => (.genericExn m, ⟨true, false⟩)
    | none =>
      match env.audioExn with
      | some m => (.genericExn m, ⟨true, true⟩)
      | none =>
        match env.recog with
        | .ok t => (.ret t, ⟨false, true⟩)
        | .unknownValue => (.unknownValue, ⟨true, true⟩)
        | .requestError m => (.requestError m, ⟨true, true⟩)
        | .otherExn m => (.genericExn m, ⟨true, true⟩)

/-- The `except` clauses of `speech_to_text` (lines 118-123): each failure
kind is converted to a message returned as if it were transcribed text. -/
def speech_to_text_handlers : TryExit → String
  | .ret t => t
  | .unknownValue => "No se pudo entender el audio. Intenta hablar más claro."
  | .requestError m => "Error del servicio de reconocimiento: " ++ m
  | .genericExn m => "Error al procesar el audio: " ++ m

/-- The `finally` clause of `speech_to_text` (lines 124-127): delete the
file only when `tmp_file_path` is in `locals()` and the file exists. -/
def speech_to_text_finally (s : TempFileState) : TempFileState :=
  if s.pathBound && s.fileExists then ⟨false, s.pathBound⟩ else s

/-- `speech_to_text` (`src/app2.py` lines 93-127): the returned text and
whether a temporary file is left on disk after the call. -/
def speech_to_text (env : STTEnv) : String × Bool :=
  let r := speech_to_text_try env
  let s2 := speech_to_text_finally r.2
  (speech_to_text_handlers r.1, s2.fileExists)

/-- Modelled from the spec: the section-6 response fixture of each family,
carrying a generated text `t` at the family's documented path.  For
`defaultFam` (whole body stringified) the fixture is the bare string. -/
def specResponseFixture : Family → String → Json
  | .anthropic, t => .obj [("content", .arr [.obj [("text", .str t)]])]
  | .ai21, t => .obj [("completions", .arr [.obj [("data", .obj [("text", .str t)])]])]
  | .amazon, t => .obj [("results", .arr [.obj [("outputText", .str t)]])]
  | .cohere, t => .obj [("generations", .arr [.obj [("text", .str t)]])]
  | .defaultFam, t => .str t

/-- Top-level response key that each family's extraction reads first
(`none` for the default family, which stringifies the whole body). -/
def familyTopKey : Family → Option String
  | .anthropic => some "content"
  | .ai21 => some "completions"
  | .amazon => some "results"
  | .cohere => some "generations"
  | .defaultFam => none

/-- Endpoint whose first attempt raises but whose later attempts would
succeed — distinguishes one-attempt behaviour from retrying behaviour. -/
def epAttemptSensitive : Nat → Json → EndpointResult :=
  fun n _ => if n = 0 then .exn "timeout" else .ok Json.null

/-- Endpoint raising a generic exception on every attempt. -/
def epAlwaysExn : Nat → Json → EndpointResult := fun _ _ => .exn "timeout"

/-- Endpoint returning a structured service error on every attempt. -/
def epThrottled : Nat → Json → EndpointResult :=
  fun _ _ => .clientError "ThrottlingException" "Rate exceeded"

/-- A 1500-character input text for exercising the synthesis cap. -/
def longTtsInput : String := List.asString (List.replicate 1500 (Char.ofNat 97))

theorem buildBody_eq_family (m p : String) (mt : Int) (tp : ℚ) :
    buildBody m p mt tp = buildForFamily (specFamilyOf m) p mt tp := by
  unfold buildBody specFamilyOf
  by_cases h1 : pyIn "anthropic" (pyLower m) <;>
    by_cases h2 : pyIn "ai21" (pyLower m) <;>
      by_cases h3 : pyIn "amazon" (pyLower m) <;>
        by_cases h4 : pyIn "cohere" (pyLower m) <;>
          simp [h1, h2, h3, h4, buildForFamily]

theorem extract_eq_family (m : String) (b : Json) :
    extract m b = extractForFamily (specFamilyOf m) b := by
  unfold extract specFamilyOf
  by_cases h1 : pyIn "anthropic" (pyLower m) <;>
    by_cases h2 : pyIn "ai21" (pyLower m) <;>
      by_cases h3 : pyIn "amazon" (pyLower m) <;>
        by_cases h4 : pyIn "cohere" (pyLower m) <;>
          simp [h1, h2, h3, h4, extractForFamily]

/-- C1 (counterexample): with Explicit mode (`use_secrets = False`) and
exactly one key field missing — access key present, secret absent, or the
reverse — `init_bedrock_client` does NOT fail with `MissingCredentialField`
(no such failure exists in the code): it falls back to the ambient default
credential chain, contradicting the claim that the resolver returns that
failure and does not fall back to another credential source. -/
theorem c1_counterexample :
    init_credential_source false (some "AKIAEXAMPLEKEY") none = CredSource.ambientDefault ∧
    init_credential_source false none (some "secretExampleKey") = CredSource.ambientDefault ∧
    CredSource.ambientDefault ≠ CredSource.explicitKeys :=
  ⟨rfl, rfl, by simp⟩

/-- C1 (amended): credential resolution in Explicit mode with exactly one
of the two key fields missing silently selects the ambient default
credential chain — the partial explicit credentials are ignored and no
`MissingCredentialField` failure is produced. -/
theorem c1_explicit_partial_falls_back (ak sk : Option String)
    (h : pyTruthyStr ak ≠ pyTruthyStr sk) :
    init_credential_source false ak sk = CredSource.ambientDefault := by
  unfold init_credential_source
  cases hak : pyTruthyStr ak <;> cases hsk : pyTruthyStr sk <;>
    simp_all

/-- C1 (witness): the amended claim at a concrete input — access key
present, secret key missing. -/
theorem c1_witness :
    init_credential_source false (some "AKIAWITNESSKEY") none = CredSource.ambientDefault :=
  c1_explicit_partial_falls_back (some "AKIAWITNESSKEY") none (by decide)

/-- C2 (counterexample): on a response body whose expected top-level key is
present but holds an empty list, the anthropic-family extraction raises
`IndexError` (`[{}][0]` has become `[][0]`) rather than returning the
empty string — refuting the claim that `extract` returns `""` and never
raises on such bodies.  (In the source the exception is then caught by
`invoke_bedrock_model`'s generic handler, which returns `None`.) -/
theorem c2_counterexample :
    extract "anthropic.claude-3-sonnet-20240229-v1:0" (Json.obj [("content", Json.arr [])]) =
      Except.error (PyError.indexError "list index out of range") ∧
    (Except.error (PyError.indexError "list index out of range") :
        Except PyError Json) ≠ Except.ok (Json.str "") :=
  ⟨rfl, by simp⟩

/-- C2 (amended): for every model identifier of one of the four named
families and every JSON object body lacking that family's expected
top-level response key, `extract` returns the empty string without
raising; bodies where the key is present but holds an empty list or a
wrongly-shaped value instead raise an exception, which the enclosing
invocation handler converts into a failed invocation (`None`), not empty
text. -/
theorem c2_missing_key_empty_text (m k : String) (kvs : List (String × Json))
    (hk : familyTopKey (specFamilyOf m) = some k) (habs : kvs.lookup k = none) :
    extract m (Json.obj kvs) = Except.ok (Json.str "") := by
  rw [extract_eq_family]
  cases hfam : specFamilyOf m <;> rw [hfam] at hk <;>
    simp only [familyTopKey, Option.some.injEq, reduceCtorEq] at hk <;>
    subst hk <;>
    simp only [extractForFamily, dictGet, habs, Option.getD_none] <;>
    rfl

/-- C2 (witness): the amended claim at a concrete input — an amazon-family
identifier with a body that has no `results` key. -/
theorem c2_witness :
    extract "amazon.titan-text-express-v1" (Json.obj [("foo", Json.null)]) =
      Except.ok (Json.str "") :=
  c2_missing_key_empty_text "amazon.titan-text-express-v1" "results" [("foo", Json.null)]
    rfl rfl

/-- C3: request building and response extraction both dispatch through the
spec's family classification — case-insensitive substring match on the
model identifier, tested in the fixed order anthropic, ai21, amazon,
cohere, first match winning, with the default family for identifiers
matching none (that order is the definition of `specFamilyOf`) — so for
the same identifier both select the same provider family. -/
theorem c3_dispatch_consistent (m p : String) (mt : Int) (tp : ℚ) (b : Json) :
    buildBody m p mt tp = buildForFamily (specFamilyOf m) p mt tp ∧
    extract m b = extractForFamily (specFamilyOf m) b :=
  ⟨buildBody_eq_family m p mt tp, extract_eq_family m b⟩

/-- C4: for each provider family the built request payload has exactly the
field names and nesting of the spec's section-6 table, and extraction
reads the table's response path for that family, the default family
returning the whole response body stringified. -/
theorem c4_wire_shapes (m p t : String) (mt : Int) (tp : ℚ) (b : Json) :
    (specFamilyOf m = Family.anthropic →
      buildBody m p mt tp =
        Json.obj [("anthropic_version", Json.str "bedrock-2023-05-31"),
                  ("max_tokens", Json.num mt),
                  ("temperature", Json.num tp),
                  ("messages", Json.arr [Json.obj [("role", Json.str "user"),
                                                   ("content", Json.str p)]])] ∧
      extract m (Json.obj [("content", Json.arr [Json.obj [("text", Json.str t)]])]) =
        Except.ok (Json.str t)) ∧
    (specFamilyOf m = Family.ai21 →
      buildBody m p mt tp =
        Json.obj [("prompt", Json.str p), ("maxTokens", Json.num mt),
                  ("temperature", Json.num tp)] ∧
      extract m (Json.obj [("completions",
          Json.arr [Json.obj [("data", Json.obj [("text", Json.str t)])]])]) =
        Except.ok (Json.str t)) ∧
    (specFamilyOf m = Family.amazon →
      buildBody m p mt tp =
        Json.obj [("inputText", Json.str p),
                  ("textGenerationConfig", Json.obj [("maxTokenCount", Json.num mt),
                                                     ("temperature", Json.num tp)])] ∧
      extract m (Json.obj [("results", Json.arr [Json.obj [("outputText", Json.str t)]])]) =
        Except.ok (Json.str t)) ∧
    (specFamilyOf m = Family.cohere →
      buildBody m p mt tp =
        Json.obj [("prompt", Json.str p), ("max_tokens", Json.num mt),
                  ("temperature", Json.num tp)] ∧
      extract m (Json.obj [("generations", Json.arr [Json.obj [("text", Json.str t)]])]) =
        Except.ok (Json.str t)) ∧
    (specFamilyOf m = Family.defaultFam →
      buildBody m p mt tp =
        Json.obj [("prompt", Json.str p), ("max_tokens", Json.num mt),
                  ("temperature", Json.num tp)] ∧
      extract m b = Except.ok (Json.str (pyStr b))) := by
  refine ⟨?_, ?_, ?_, ?_, ?_⟩ <;> intro h <;>
    rw [buildBody_eq_family, extract_eq_family, h] <;> exact ⟨rfl, rfl⟩

/-- C4 (witness): one concrete identifier per family, exercising each of
the five implications of the theorem. -/
theorem c4_witness :
    extract "anthropic.claude-v2:1"
        (Json.obj [("content", Json.arr [Json.obj [("text", Json.str "w1")]])]) =
      Except.ok (Json.str "w1") ∧
    extract "ai21.j2-mid-v1"
        (Json.obj [("completions",
          Json.arr [Json.obj [("data", Json.obj [("text", Json.str "w2")])]])]) =
      Except.ok (Json.str "w2") ∧
    extract "amazon.titan-text-lite-v1"
        (Json.obj [("results", Json.arr [Json.obj [("outputText", Json.str "w3")]])]) =
      Except.ok (Json.str "w3") ∧
    extract "cohere.command-light-text-v14"
        (Json.obj [("generations", Json.arr [Json.obj [("text", Json.str "w4")]])]) =
      Except.ok (Json.str "w4") ∧
    extract "mistral.mixtral-8x7b" (Json.str "w5") =
      Except.ok (Json.str (pyStr (Json.str "w5"))) :=
  ⟨((c4_wire_shapes "anthropic.claude-v2:1" "p" "w1" 1 0 Json.null).1 (by decide)).2,
   ((c4_wire_shapes "ai21.j2-mid-v1" "p" "w2" 1 0 Json.null).2.1 (by decide)).2,
   ((c4_wire_shapes "amazon.titan-text-lite-v1" "p" "w3" 1 0 Json.null).2.2.1 (by decide)).2,
   ((c4_wire_shapes "cohere.command-light-text-v14" "p" "w4" 1 0 Json.null).2.2.2.1 (by decide)).2,
   ((c4_wire_shapes "mistral.mixtral-8x7b" "p" "w5" 1 0 (Json.str "w5")).2.2.2.2 (by decide)).2⟩

/-- C5: for each of the four named provider families and every response
text, feeding the family's documented response shape to `extract` yields
exactly that text; and for the concrete scenario — identifier
`anthropic.claude-3-sonnet-20240229-v1:0`, prompt `Hello`, maxTokens 50,
temperature 0.5 — the request body carries the single user-role message
with content `Hello`, and the body with `content[0].text = "Hi there"`
extracts to `Hi there`. -/
theorem c5_roundtrip (m t : String)
    (h : specFamilyOf m ≠ Family.defaultFam) :
    extract m (specResponseFixture (specFamilyOf m) t) = Except.ok (Json.str t) ∧
    buildBody "anthropic.claude-3-sonnet-20240229-v1:0" "Hello" 50 (1/2) =
      Json.obj [("anthropic_version", Json.str "bedrock-2023-05-31"),
                ("max_tokens", Json.num ((50 : Int) : ℚ)),
                ("temperature", Json.num (1/2)),
                ("messages", Json.arr [Json.obj [("role", Json.str "user"),
                                                 ("content", Json.str "Hello")]])] ∧
    extract "anthropic.claude-3-sonnet-20240229-v1:0"
      (Json.obj [("content", Json.arr [Json.obj [("text", Json.str "Hi there")]])]) =
      Except.ok (Json.str "Hi there") := by
  refine ⟨?_, rfl, rfl⟩
  rw [extract_eq_family]
  cases hfam : specFamilyOf m with
  | defaultFam => exact absurd hfam h
  | anthropic => rfl
  | ai21 => rfl
  | amazon => rfl
  | cohere => rfl

/-- C5 (witness): the universal round-trip at a concrete cohere-family
identifier and text. -/
theorem c5_witness :
    extract "cohere.command-text-v14"
      (specResponseFixture (specFamilyOf "cohere.command-text-v14") "texto") =
      Except.ok (Json.str "texto") :=
  (c5_roundtrip "cohere.command-text-v14" "texto" (by decide)).1

/-- C6: in both per-turn handlers (`src/app.py` `main` and `src/app2.py`
`process_user_message`), a failed invocation (`None` response) leaves the
conversation log unchanged except for the already-appended user turn, and
every assistant turn that is new in the output comes from exactly one
completed invocation whose (truthy) response is the turn's content. -/
theorem c6_assistant_invariant :
    (∀ (msgs : List Turn) (prompt : String),
      main_chat_turn msgs prompt none = msgs ++ [⟨Role.user, Json.str prompt, none⟩]) ∧
    (∀ (tts : Json → Option (List Nat)) (msgs : List Turn) (prompt : String)
        (ve : Bool) (vl : Option String),
      process_user_message tts msgs prompt none ve vl =
        msgs ++ [⟨Role.user, Json.str prompt, none⟩]) ∧
    (∀ (msgs : List Turn) (prompt : String) (resp : Option Json) (t : Turn),
      t ∈ main_chat_turn msgs prompt resp → t.role = Role.assistant →
      t ∈ msgs ∨ ∃ v, resp = some v ∧ jsonTruthy v = true ∧
        t = ⟨Role.assistant, v, none⟩) ∧
    (∀ (tts : Json → Option (List Nat)) (msgs : List Turn) (prompt : String)
        (resp : Option Json) (ve : Bool) (vl : Option String) (t : Turn),
      t ∈ process_user_message tts msgs prompt resp ve vl → t.role = Role.assistant →
      t ∈ msgs ∨ ∃ v, resp = some v ∧ jsonTruthy v = true ∧
        t.role = Role.assistant ∧ t.content = v) := by
  refine ⟨fun msgs prompt => rfl, fun tts msgs prompt ve vl => rfl, ?_, ?_⟩
  · intro msgs prompt resp t ht hrole
    cases resp with
    | none =>
      simp only [main_chat_turn, List.mem_append, List.mem_singleton] at ht
      rcases ht with ht | ht
      · exact Or.inl ht
      · subst ht; simp at hrole
    | some v =>
      cases hv : jsonTruthy v with
      | false =>
        simp only [main_chat_turn, hv, Bool.false_eq_true, if_false,
          List.mem_append, List.mem_singleton] at ht
        rcases ht with ht | ht
        · exact Or.inl ht
        · subst ht; simp at hrole
      | true =>
        simp only [main_chat_turn, hv, if_true, List.append_assoc,
          List.mem_append, List.mem_singleton] at ht
        rcases ht with ht | ht | ht
        · exact Or.inl ht
        · subst ht; simp at hrole
        · subst ht; exact Or.inr ⟨v, rfl, hv, rfl⟩
  · intro tts msgs prompt resp ve vl t ht hrole
    cases resp with
    | none =>
      simp only [process_user_message, List.mem_append, List.mem_singleton] at ht
      rcases ht with ht | ht
      · exact Or.inl ht
      · subst ht; simp at hrole
    | some v =>
      cases hv : jsonTruthy v with
      | false =>
        simp only [process_user_message, hv, Bool.false_eq_true, if_false,
          List.mem_append, List.mem_singleton] at ht
        rcases ht with ht | ht
        · exact Or.inl ht
        · subst ht; simp at hrole
      | true =>
        simp only [process_user_message, hv, if_true, List.append_assoc,
          List.mem_append, List.mem_singleton] at ht
        rcases ht with ht | ht | ht
        · exact Or.inl ht
        · subst ht; simp at hrole
        · subst ht; exact Or.inr ⟨v, rfl, hv, rfl, rfl⟩

/-- C6 (witness): the failure clause and the assistant-provenance clause
at concrete inputs. -/
theorem c6_witness :
    main_chat_turn [] "hola" none = [⟨Role.user, Json.str "hola", none⟩] ∧
    ((⟨Role.assistant, Json.str "ok", none⟩ : Turn) ∈ ([] : List Turn) ∨
      ∃ v, (some (Json.str "ok") : Option Json) = some v ∧ jsonTruthy v = true ∧
        (⟨Role.assistant, Json.str "ok", none⟩ : Turn) = ⟨Role.assistant, v, none⟩) :=
  ⟨c6_assistant_invariant.1 [] "hola",
   c6_assistant_invariant.2.2.1 [] "hola" (some (Json.str "ok"))
     ⟨Role.assistant, Json.str "ok", none⟩
     (by rw [show main_chat_turn [] "hola" (some (Json.str "ok")) =
           [⟨Role.user, Json.str "hola", none⟩, ⟨Role.assistant, Json.str "ok", none⟩]
         from rfl]
         simp)
     rfl⟩

/-- C7: `invoke_bedrock_model` makes exactly one attempt — its outcome
depends on the endpoint only through attempt index 0, so retrying
behaviour is indistinguishable from none; a structured service error is
surfaced with its code and message verbatim as a failure; any other
exception yields a failure; and every outcome is `success` or `failure`
(the catch-all handlers mean no exception propagates to the caller). -/
theorem c7_invoke_single_attempt :
    (∀ (ep1 ep2 : Nat → Json → EndpointResult) (m p : String) (mt : Int) (tp : ℚ),
      ep1 0 = ep2 0 →
      invoke_bedrock_model ep1 m p mt tp = invoke_bedrock_model ep2 m p mt tp) ∧
    (∀ (ep : Nat → Json → EndpointResult) (m p : String) (mt : Int) (tp : ℚ)
        (c msg : String),
      ep 0 (buildBody m p mt tp) = EndpointResult.clientError c msg →
      invoke_bedrock_model ep m p mt tp =
        InvokeOutcome.failure ("Error de AWS: " ++ c ++ " - " ++ msg)) ∧
    (∀ (ep : Nat → Json → EndpointResult) (m p : String) (mt : Int) (tp : ℚ)
        (msg : String),
      ep 0 (buildBody m p mt tp) = EndpointResult.exn msg →
      invoke_bedrock_model ep m p mt tp =
        InvokeOutcome.failure ("Error al invocar el modelo: " ++ msg)) ∧
    (∀ (ep : Nat → Json → EndpointResult) (m p : String) (mt : Int) (tp : ℚ),
      (∃ v, invoke_bedrock_model ep m p mt tp = InvokeOutcome.success v) ∨
      (∃ s, invoke_bedrock_model ep m p mt tp = InvokeOutcome.failure s)) := by
  refine ⟨?_, ?_, ?_, ?_⟩
  · intro ep1 ep2 m p mt tp h
    simp only [invoke_bedrock_model, h]
  · intro ep m p mt tp c msg h
    simp only [invoke_bedrock_model, h]
  · intro ep m p mt tp msg h
    simp only [invoke_bedrock_model, h]
  · intro ep m p mt tp
    rcases h : invoke_bedrock_model ep m p mt tp with v | s
    · exact Or.inl ⟨v, rfl⟩
    · exact Or.inr ⟨s, rfl⟩

/-- C7 (witness): the theorem's clauses at concrete endpoints — an
endpoint that would answer differently on a second attempt is
indistinguishable from one that always fails, a throttling `ClientError`
surfaces code and message, and a generic exception surfaces its text. -/
theorem c7_witness :
    invoke_bedrock_model epAttemptSensitive "anthropic.claude-v2:1" "hola" 10 1 =
      invoke_bedrock_model epAlwaysExn "anthropic.claude-v2:1" "hola" 10 1 ∧
    invoke_bedrock_model epThrottled "m" "p" 1 0 =
      InvokeOutcome.failure ("Error de AWS: " ++ "ThrottlingException" ++ " - " ++ "Rate exceeded") ∧
    invoke_bedrock_model epAlwaysExn "m" "p" 1 0 =
      InvokeOutcome.failure ("Error al invocar el modelo: " ++ "timeout") ∧
    ((∃ v, invoke_bedrock_model epThrottled "q" "r" 2 0 = InvokeOutcome.success v) ∨
      (∃ s, invoke_bedrock_model epThrottled "q" "r" 2 0 = InvokeOutcome.failure s)) :=
  ⟨c7_invoke_single_attempt.1 epAttemptSensitive epAlwaysExn "anthropic.claude-v2:1" "hola" 10 1 rfl,
   c7_invoke_single_attempt.2.1 epThrottled "m" "p" 1 0 "ThrottlingException" "Rate exceeded" rfl,
   c7_invoke_single_attempt.2.2.1 epAlwaysExn "m" "p" 1 0 "timeout" rfl,
   c7_invoke_single_attempt.2.2.2 epThrottled "q" "r" 2 0⟩

/-- C8: `text_to_speech` hands the synthesizer the first 1000 characters
followed by `"..."` whenever the input is strictly longer than 1000
characters, and the unchanged input otherwise; the cap is the literal 1000
of the source, not a parameter. -/
theorem c8_truncation (gtts : String → Option (List Nat)) (text : String) :
    (1000 < text.length →
      text_to_speech gtts text = gtts (text.take 1000 ++ "...")) ∧
    (text.length ≤ 1000 → text_to_speech gtts text = gtts text) := by
  constructor <;> intro h <;> unfold text_to_speech
  · rw [if_pos (show text.length > 1000 by omega)]
  · rw [if_neg (show ¬text.length > 1000 by omega)]

/-- C8 (witness): a 1500-character input is truncated before synthesis; a
short input passes through unchanged. -/
theorem c8_witness :
    text_to_speech (fun s => some [s.length]) longTtsInput =
      some [(longTtsInput.take 1000 ++ "...").length] ∧
    text_to_speech (fun s => some [s.length]) "hola" = some [String.length "hola"] :=
  ⟨(c8_truncation (fun s => some [s.length]) longTtsInput).1
     (by unfold longTtsInput
         rw [List.length_asString, List.length_replicate]
         omega),
   (c8_truncation (fun s => some [s.length]) "hola").2 (by decide)⟩

/-- C9: `speech_to_text` leaks its temporary file when
`tmp_file.write(audio_data)` raises after the file was created — the local
`tmp_file_path` is only bound after the write, so the `finally` clause
(which requires the name in `locals()`) skips the deletion — and on every
other path (success, each recognized failure, unexpected exceptions after
the path is bound, or creation failing before any file exists) no
temporary file is left behind: the leak happens exactly when creation
succeeds and the write raises. -/
theorem c9_temp_file_leak :
    (speech_to_text ⟨none, some "No space left on device", none, RecogOutcome.ok "hola"⟩).2 =
      true ∧
    (∀ env : STTEnv,
      (speech_to_text env).2 = (env.createExn.isNone && env.writeExn.isSome)) := by
  refine ⟨rfl, ?_⟩
  intro env
  rcases env with ⟨ce, we, ae, rg⟩
  cases ce <;> cases we <;> cases ae <;> first
    | rfl
    | (cases rg <;> rfl)

/-- C10: when voice is enabled and text-to-speech fails (returns no
audio), `process_user_message` still appends the assistant turn with its
full text content and no audio field — an audio failure never discards or
alters the model's text response. -/
theorem c10_audio_failure_keeps_text (msgs : List Turn) (prompt : String) (v : Json)
    (vl : String) (hv : jsonTruthy v = true) (hl : vl.isEmpty = false) :
    process_user_message (fun _ => none) msgs prompt (some v) true (some vl) =
      msgs ++ [⟨Role.user, Json.str prompt, none⟩, ⟨Role.assistant, v, none⟩] := by
  simp [process_user_message, hv, pyTruthyStr, hl]

/-- C10 (witness): a concrete truthy response with voice enabled, language
`es`, and a failing synthesizer. -/
theorem c10_witness :
    process_user_message (fun _ => none) [] "hola" (some (Json.str "respuesta")) true
        (some "es") =
      [⟨Role.user, Json.str "hola", none⟩, ⟨Role.assistant, Json.str "respuesta", none⟩] :=
  c10_audio_failure_keeps_text [] "hola" (Json.str "respuesta") "es" rfl rfl

end StQbApp
